import Mathlib

/-!
Verification of the resource-handler facade library (googs1025/k8s).

The library wraps a cluster-management SDK with per-resource-kind handlers
offering Create/Update/Apply/Delete/Get/Patch/Watch operations that accept
the target resource in several input shapes (file path, raw bytes, typed
object, unstructured object, generic map).

This development shallowly embeds the dispatch and delegation logic of each
handler.  Go byte slices are modelled as `String` (the code only ever treats
them as text: file contents, YAML documents, JSON patch data).  External SDK
collaborators (file system reads, YAML-to-JSON conversion, JSON marshalling,
two-way merge-patch computation, unstructured-to-typed conversion, REST
mapping) are fields of an explicit environment record, so that every
embedded operation is a pure executable function of handler, environment
and argument.  The observable result of an operation is either an error or
a description of the single cluster-API request the operation delegates to.
-/

set_option autoImplicit false

namespace K8s

/-- Errors a handler operation can produce.  Sentinel type-dispatch errors
(ERR_TYPE_UPDATE, ERR_TYPE_DELETE, ERR_TYPE_GET, ERR_TYPE_CREATE,
ERR_TYPE_APPLY, ErrInvalidPathType) are separate constructors from
IO/decoding/conversion errors and from errors returned by the cluster API. -/
inductive Err where
  | ioErr (msg : String)
  | yamlErr (msg : String)
  | jsonErr (msg : String)
  | convErr (msg : String)
  | assertErr (msg : String)
  | mapperErr (msg : String)
  | errTypeUpdate
  | errTypeDelete
  | errTypeGet
  | errTypeCreate
  | errTypeApply
  | errInvalidPathType
  | alreadyExists
  | apiErr (msg : String)
  deriving DecidableEq, Repr

/-- k8serrors.IsAlreadyExists, applied to a non-nil error value. -/
def Err.isAlreadyExists : Err → Bool
  | .alreadyExists => true
  | _ => false

/-- types.JSONPatchType from the SDK (a string constant). -/
def JSONPatchType : String := "application/json-patch+json"

/-- types.MergePatchType from the SDK (a string constant). -/
def MergePatchType : String := "application/merge-patch+json"

/-- types.StrategicMergePatchType from the SDK (a string constant). -/
def StrategicMergePatchType : String := "application/strategic-merge-patch+json"

/-- The test `len(patchOptions) != 0 && patchOptions[0] == t` used by the
Patch dispatchers: the caller passed at least one patch option and the
first one equals `t`. -/
def firstOptIs (patchOptions : List String) (t : String) : Bool :=
  match patchOptions with
  | [] => false
  | p :: _ => p == t

/-- Unstructured content (the payload of map[string]interface\x7b\x7d and
unstructured.Unstructured values); uninterpreted by the handlers, which only pass
it to the SDK converter, so modelled as an uninterpreted blob. -/
def UMap : Type := String

deriving instance DecidableEq for UMap

/-- An unstructured.Unstructured value: a wrapper whose UnstructuredContent()
is the underlying map. -/
structure Unstr where
  content : UMap
  deriving DecidableEq

end K8s

namespace persistentvolume

open K8s

/-- corev1.PersistentVolume, restricted to the fields the patch code reads.
PersistentVolumes are cluster-scoped; Patch only uses the object name, and
the full object is marshalled through the environment. -/
structure PV where
  name : String
  body : String
  deriving DecidableEq

/-- External collaborators used by the persistentvolume Patch code path:
os.ReadFile, yaml.ToJSON, json.Marshal, strategicpatch.CreateTwoWayMergePatch
and runtime.DefaultUnstructuredConverter.FromUnstructured. -/
structure Env where
  readFile : String → Except Err String
  yamlToJSON : String → Except Err String
  marshal : PV → Except Err String
  createTwoWayMergePatch : String → String → Except Err String
  fromUnstructured : UMap → Except Err PV

/-- The observable result of a successful Patch: either the original object
was returned with no cluster-API request, or exactly one Patch request was
issued against the named object with the given patch type and patch data. -/
inductive Outcome where
  | originalReturned (o : PV)
  | patchCall (name : String) (patchType : String) (patchData : String)
  deriving DecidableEq

/-- The patch argument of Handler.Patch (a Go interface value), by dynamic
type.  `runtimeObj (some p)` is a runtime.Object whose dynamic type is
a PersistentVolume pointer, `runtimeObj none` any other runtime.Object;
`other` is any value matching none of the listed cases. -/
inductive PatchArg where
  | str (path : String)
  | bytes (data : String)
  | pvPtr (p : PV)
  | pvVal (p : PV)
  | mp (m : UMap)
  | unstrPtr (u : Unstr)
  | unstrVal (u : Unstr)
  | runtimeObj (o : Option PV)
  | other

/-- Handler.strategicMergePatch: return the original on empty or trivial
patch data, otherwise issue a StrategicMergePatchType request. -/
def strategicMergePatch (original : PV) (patchData : String) : Except Err Outcome :=
  if patchData.length == 0 || patchData == "{}" then
    .ok (.originalReturned original)
  else
    .ok (.patchCall original.name StrategicMergePatchType patchData)

/-- Handler.jsonMergePatch of the persistentvolume package.  Its doc comment
says it uses the JSON Merge Patch type, but the request it issues passes
types.StrategicMergePatchType. -/
def jsonMergePatch (original : PV) (patchData : String) : Except Err Outcome :=
  if patchData.length == 0 || patchData == "{}" then
    .ok (.originalReturned original)
  else
    .ok (.patchCall original.name StrategicMergePatchType patchData)

/-- Handler.jsonPatch: always issue a JSONPatchType request. -/
def jsonPatch (original : PV) (patchData : String) : Except Err Outcome :=
  .ok (.patchCall original.name JSONPatchType patchData)

/-- Handler.diffMergePatch: marshal both objects, compute the two-way
strategic merge patch, return the original on an empty diff, otherwise
issue a MergePatchType request when the first patch option is
types.MergePatchType and a StrategicMergePatchType request otherwise. -/
def diffMergePatch (env : Env) (original modified : PV)
    (patchOptions : List String) : Except Err Outcome := do
  let originalJson ← env.marshal original
  let modifiedJson ← env.marshal modified
  let patchData ← env.createTwoWayMergePatch originalJson modifiedJson
  if patchData.length == 0 || patchData == "{}" then
    .ok (.originalReturned original)
  else if firstOptIs patchOptions MergePatchType then
    .ok (.patchCall original.name MergePatchType patchData)
  else
    .ok (.patchCall original.name StrategicMergePatchType patchData)

/-- Handler.Patch of the persistentvolume package: type-switch on the patch
argument, normalizing file paths and raw bytes through yaml.ToJSON and
typed/unstructured/map arguments through diffMergePatch. -/
def Patch (env : Env) (original : PV) (patch : PatchArg)
    (patchOptions : List String) : Except Err Outcome :=
  match patch with
  | .str path => do
    let patchData ← env.readFile path
    let jsonData ← env.yamlToJSON patchData
    if firstOptIs patchOptions JSONPatchType then
      jsonPatch original jsonData
    else if firstOptIs patchOptions MergePatchType then
      jsonMergePatch original jsonData
    else
      strategicMergePatch original jsonData
  | .bytes data => do
    let jsonData ← env.yamlToJSON data
    if firstOptIs patchOptions JSONPatchType then
      jsonPatch original jsonData
    else if firstOptIs patchOptions MergePatchType then
      jsonMergePatch original jsonData
    else
      strategicMergePatch original jsonData
  | .pvPtr p => diffMergePatch env original p patchOptions
  | .pvVal p => diffMergePatch env original p patchOptions
  | .mp m => do
    let modified ← env.fromUnstructured m
    diffMergePatch env original modified patchOptions
  | .unstrPtr u => do
    let modified ← env.fromUnstructured u.content
    diffMergePatch env original modified patchOptions
  | .unstrVal u => do
    let modified ← env.fromUnstructured u.content
    diffMergePatch env original modified patchOptions
  | .runtimeObj o =>
    match o with
    | some modified => diffMergePatch env original modified patchOptions
    | none => .error (.assertErr "patch data type is not *corev1.PersistentVolume")
  | .other => .error .errInvalidPathType

end persistentvolume

namespace clusterrole

open K8s

/-- rbacv1.ClusterRole, restricted to the fields the embedded code reads.
ClusterRoles are cluster-scoped; only the object name is used directly. -/
structure CR where
  name : String
  body : String
  deriving DecidableEq

/-- External collaborators of the clusterrole package: the patch
collaborators as for persistentvolume, plus the Create/Update entry points
that Apply delegates to (their bodies live in sibling files). -/
structure Env where
  readFile : String → Except Err String
  yamlToJSON : String → Except Err String
  marshal : CR → Except Err String
  createTwoWayMergePatch : String → String → Except Err String
  fromUnstructured : UMap → Except Err CR
  createCR : CR → Except Err CR
  updateCR : CR → Except Err CR
  createFromFile : String → Except Err CR
  updateFromFile : String → Except Err CR
  createFromBytes : String → Except Err CR
  updateFromBytes : String → Except Err CR

/-- Observable result of a successful clusterrole Patch. -/
inductive Outcome where
  | originalReturned (o : CR)
  | patchCall (name : String) (patchType : String) (patchData : String)
  deriving DecidableEq

/-- The patch argument of clusterrole Handler.Patch, by dynamic type. -/
inductive PatchArg where
  | str (path : String)
  | bytes (data : String)
  | crPtr (c : CR)
  | crVal (c : CR)
  | mp (m : UMap)
  | unstrPtr (u : Unstr)
  | unstrVal (u : Unstr)
  | runtimeObj (o : Option CR)
  | other

/-- clusterrole Handler.strategicMergePatch. -/
def strategicMergePatch (original : CR) (patchData : String) : Except Err Outcome :=
  if patchData.length == 0 || patchData == "{}" then
    .ok (.originalReturned original)
  else
    .ok (.patchCall original.name StrategicMergePatchType patchData)

/-- clusterrole Handler.jsonMergePatch: issues the request with
types.MergePatchType. -/
def jsonMergePatch (original : CR) (patchData : String) : Except Err Outcome :=
  if patchData.length == 0 || patchData == "{}" then
    .ok (.originalReturned original)
  else
    .ok (.patchCall original.name MergePatchType patchData)

/-- clusterrole Handler.jsonPatch. -/
def jsonPatch (original : CR) (patchData : String) : Except Err Outcome :=
  .ok (.patchCall original.name JSONPatchType patchData)

/-- clusterrole Handler.diffMergePatch. -/
def diffMergePatch (env : Env) (original modified : CR)
    (patchOptions : List String) : Except Err Outcome := do
  let originalJson ← env.marshal original
  let modifiedJson ← env.marshal modified
  let patchData ← env.createTwoWayMergePatch originalJson modifiedJson
  if patchData.length == 0 || patchData == "{}" then
    .ok (.originalReturned original)
  else if firstOptIs patchOptions MergePatchType then
    .ok (.patchCall original.name MergePatchType patchData)
  else
    .ok (.patchCall original.name StrategicMergePatchType patchData)

/-- clusterrole Handler.Patch. -/
def Patch (env : Env) (original : CR) (patch : PatchArg)
    (patchOptions : List String) : Except Err Outcome :=
  match patch with
  | .str path => do
    let patchData ← env.readFile path
    let jsonData ← env.yamlToJSON patchData
    if firstOptIs patchOptions JSONPatchType then
      jsonPatch original jsonData
    else if firstOptIs patchOptions MergePatchType then
      jsonMergePatch original jsonData
    else
      strategicMergePatch original jsonData
  | .bytes data => do
    let jsonData ← env.yamlToJSON data
    if firstOptIs patchOptions JSONPatchType then
      jsonPatch original jsonData
    else if firstOptIs patchOptions MergePatchType then
      jsonMergePatch original jsonData
    else
      strategicMergePatch original jsonData
  | .crPtr c => diffMergePatch env original c patchOptions
  | .crVal c => diffMergePatch env original c patchOptions
  | .mp m => do
    let modified ← env.fromUnstructured m
    diffMergePatch env original modified patchOptions
  | .unstrPtr u => do
    let modified ← env.fromUnstructured u.content
    diffMergePatch env original modified patchOptions
  | .unstrVal u => do
    let modified ← env.fromUnstructured u.content
    diffMergePatch env original modified patchOptions
  | .runtimeObj o =>
    match o with
    | some modified => diffMergePatch env original modified patchOptions
    | none => .error (.assertErr "patch data type is not *rbacv1.ClusterRole")
  | .other => .error .errInvalidPathType

/-- The argument of clusterrole Handler.Apply, by dynamic type.  In the Go
code the runtime.Object case inspects the reflected type: an
unstructured.Unstructured pointer is routed to ApplyFromUnstructured,
everything else to ApplyFromObject (which type-asserts to a ClusterRole). -/
inductive ApplyArg where
  | str (path : String)
  | bytes (data : String)
  | crPtr (c : CR)
  | crVal (c : CR)
  | runtimeUnstr (u : Unstr)
  | runtimeCR (c : CR)
  | runtimeOther
  | unstrPtr (u : Unstr)
  | unstrVal (u : Unstr)
  | mp (m : UMap)
  | other

/-- An Apply result together with whether the update path was taken:
Apply first attempts the create, and falls back to update exactly on an
AlreadyExists error. -/
structure ApplyResult where
  res : Except Err CR
  updateAttempted : Bool

/-- clusterrole Handler.applyCR: create the object; on an AlreadyExists
error, update it instead; on success return the input object; on any other
error return that error. -/
def applyCR (env : Env) (cr : CR) : ApplyResult :=
  match env.createCR cr with
  | .ok _ => { res := .ok cr, updateAttempted := false }
  | .error e =>
    if e.isAlreadyExists then
      { res := env.updateCR cr, updateAttempted := true }
    else
      { res := .error e, updateAttempted := false }

/-- clusterrole Handler.ApplyFromFile: create from file, and on an
AlreadyExists error update from the same file. -/
def ApplyFromFile (env : Env) (filename : String) : ApplyResult :=
  match env.createFromFile filename with
  | .ok cr => { res := .ok cr, updateAttempted := false }
  | .error e =>
    if e.isAlreadyExists then
      { res := env.updateFromFile filename, updateAttempted := true }
    else
      { res := .error e, updateAttempted := false }

/-- clusterrole Handler.ApplyFromBytes: create from bytes, and on an
AlreadyExists error update from the same bytes. -/
def ApplyFromBytes (env : Env) (data : String) : ApplyResult :=
  match env.createFromBytes data with
  | .ok cr => { res := .ok cr, updateAttempted := false }
  | .error e =>
    if e.isAlreadyExists then
      { res := env.updateFromBytes data, updateAttempted := true }
    else
      { res := .error e, updateAttempted := false }

/-- clusterrole Handler.ApplyFromObject: type-assert to a ClusterRole and
delegate to applyCR. -/
def ApplyFromObject (env : Env) (o : Option CR) : ApplyResult :=
  match o with
  | some cr => applyCR env cr
  | none => { res := .error (.assertErr "object type is not *rbacv1.ClusterRole"),
              updateAttempted := false }

/-- clusterrole Handler.ApplyFromUnstructured: convert the unstructured
content to a ClusterRole and delegate to applyCR. -/
def ApplyFromUnstructured (env : Env) (u : Unstr) : ApplyResult :=
  match env.fromUnstructured u.content with
  | .ok cr => applyCR env cr
  | .error e => { res := .error e, updateAttempted := false }

/-- clusterrole Handler.ApplyFromMap: convert the map to a ClusterRole and
delegate to applyCR. -/
def ApplyFromMap (env : Env) (m : UMap) : ApplyResult :=
  match env.fromUnstructured m with
  | .ok cr => applyCR env cr
  | .error e => { res := .error e, updateAttempted := false }

/-- clusterrole Handler.Apply: type-switch dispatch to the ApplyFrom*
entry points. -/
def Apply (env : Env) (obj : ApplyArg) : ApplyResult :=
  match obj with
  | .str path => ApplyFromFile env path
  | .bytes data => ApplyFromBytes env data
  | .crPtr c => ApplyFromObject env (some c)
  | .crVal c => ApplyFromObject env (some c)
  | .runtimeUnstr u => ApplyFromUnstructured env u
  | .runtimeCR c => ApplyFromObject env (some c)
  | .runtimeOther => ApplyFromObject env none
  | .unstrPtr u => ApplyFromUnstructured env u
  | .unstrVal u => ApplyFromUnstructured env u
  | .mp m => ApplyFromMap env m
  | .other => { res := .error .errTypeApply, updateAttempted := false }

end clusterrole

namespace deployment

open K8s

/-- appsv1.Deployment, restricted to the metadata fields the embedded code
reads and writes: name, namespace, resourceVersion, uid, plus an uninterpreted
rest-of-object payload. -/
structure Deployment where
  name : String
  ns : String
  resourceVersion : String
  uid : String
  body : String
  deriving DecidableEq

/-- The handler configuration the update path reads: the configured
namespace. -/
structure Handler where
  ns : String
  deriving DecidableEq

/-- External collaborators of the deployment update path: ioutil.ReadFile,
yaml.ToJSON, json.Unmarshal into a Deployment, and
runtime.DefaultUnstructuredConverter.FromUnstructured. -/
structure Env where
  readFile : String → Except Err String
  yamlToJSON : String → Except Err String
  unmarshal : String → Except Err Deployment
  fromUnstructured : UMap → Except Err Deployment

/-- The single cluster-API request an update delegates to: an Update of the
given object in the given namespace. -/
structure UpdateCall where
  ns : String
  deploy : Deployment
  deriving DecidableEq

/-- The argument of deployment Handler.Update, by dynamic type.
`runtimeObj (some d)` is a runtime.Object whose dynamic type is a
Deployment pointer, `runtimeObj none` any other runtime.Object. -/
inductive UpdateArg where
  | str (s : String)
  | bytes (data : String)
  | ptr (d : Deployment)
  | val (d : Deployment)
  | runtimeObj (o : Option Deployment)
  | mp (m : UMap)
  | other

/-- deployment Handler.updateDeployment: resolve the target namespace from
the object metadata (falling back to the handler namespace), clear
resourceVersion and uid, and issue the Update request. -/
def updateDeployment (h : Handler) (d : Deployment) : Except Err UpdateCall :=
  let ns := if d.ns.length != 0 then d.ns else h.ns
  .ok { ns := ns, deploy := { d with resourceVersion := "", uid := "" } }

/-- deployment Handler.UpdateFromBytes: yaml.ToJSON, json.Unmarshal,
delegate to updateDeployment. -/
def UpdateFromBytes (h : Handler) (env : Env) (data : String) : Except Err UpdateCall := do
  let deployJson ← env.yamlToJSON data
  let deploy ← env.unmarshal deployJson
  updateDeployment h deploy

/-- deployment Handler.UpdateFromFile: read the file and delegate to
UpdateFromBytes. -/
def UpdateFromFile (h : Handler) (env : Env) (filename : String) : Except Err UpdateCall := do
  let data ← env.readFile filename
  UpdateFromBytes h env data

/-- deployment Handler.UpdateFromObject: type-assert to a Deployment and
delegate to updateDeployment. -/
def UpdateFromObject (h : Handler) (o : Option Deployment) : Except Err UpdateCall :=
  match o with
  | some deploy => updateDeployment h deploy
  | none => .error (.assertErr "object is not *appsv1.Deployment")

/-- deployment Handler.UpdateFromUnstructured: convert the map to a
Deployment and delegate to updateDeployment. -/
def UpdateFromUnstructured (h : Handler) (env : Env) (m : UMap) : Except Err UpdateCall := do
  let deploy ← env.fromUnstructured m
  updateDeployment h deploy

/-- deployment Handler.Update: type-switch dispatch; a string argument is
routed to UpdateFromFile, an unrecognized type to ERR_TYPE_UPDATE. -/
def Update (h : Handler) (env : Env) (obj : UpdateArg) : Except Err UpdateCall :=
  match obj with
  | .str s => UpdateFromFile h env s
  | .bytes data => UpdateFromBytes h env data
  | .ptr d => UpdateFromObject h (some d)
  | .val d => UpdateFromObject h (some d)
  | .runtimeObj o => UpdateFromObject h o
  | .mp m => UpdateFromUnstructured h env m
  | .other => .error .errTypeUpdate

end deployment

namespace daemonset

open K8s

/-- appsv1.DaemonSet, restricted to the metadata fields the embedded code
reads and writes. -/
structure DaemonSet where
  name : String
  ns : String
  resourceVersion : String
  uid : String
  body : String
  deriving DecidableEq

/-- The handler configuration the update path reads. -/
structure Handler where
  ns : String
  deriving DecidableEq

/-- External collaborators of the daemonset update path. -/
structure Env where
  readFile : String → Except Err String
  yamlToJSON : String → Except Err String
  unmarshal : String → Except Err DaemonSet
  fromUnstructured : UMap → Except Err DaemonSet

/-- The single Update request the daemonset update path delegates to. -/
structure UpdateCall where
  ns : String
  ds : DaemonSet
  deriving DecidableEq

/-- The argument of daemonset Handler.Update, by dynamic type. -/
inductive UpdateArg where
  | str (s : String)
  | bytes (data : String)
  | ptr (d : DaemonSet)
  | val (d : DaemonSet)
  | runtimeObj (o : Option DaemonSet)
  | mp (m : UMap)
  | other

/-- daemonset Handler.updateDaemonset: resolve namespace, clear
resourceVersion and uid, issue the Update request. -/
def updateDaemonset (h : Handler) (d : DaemonSet) : Except Err UpdateCall :=
  let ns := if d.ns.length != 0 then d.ns else h.ns
  .ok { ns := ns, ds := { d with resourceVersion := "", uid := "" } }

/-- daemonset Handler.UpdateFromBytes. -/
def UpdateFromBytes (h : Handler) (env : Env) (data : String) : Except Err UpdateCall := do
  let dsJson ← env.yamlToJSON data
  let ds ← env.unmarshal dsJson
  updateDaemonset h ds

/-- daemonset Handler.UpdateFromFile. -/
def UpdateFromFile (h : Handler) (env : Env) (filename : String) : Except Err UpdateCall := do
  let data ← env.readFile filename
  UpdateFromBytes h env data

/-- daemonset Handler.UpdateFromObject. -/
def UpdateFromObject (h : Handler) (o : Option DaemonSet) : Except Err UpdateCall :=
  match o with
  | some ds => updateDaemonset h ds
  | none => .error (.assertErr "object is not *appsv1.DaemonSet")

/-- daemonset Handler.UpdateFromUnstructured. -/
def UpdateFromUnstructured (h : Handler) (env : Env) (m : UMap) : Except Err UpdateCall := do
  let ds ← env.fromUnstructured m
  updateDaemonset h ds

/-- daemonset Handler.Update: type-switch dispatch. -/
def Update (h : Handler) (env : Env) (obj : UpdateArg) : Except Err UpdateCall :=
  match obj with
  | .str s => UpdateFromFile h env s
  | .bytes data => UpdateFromBytes h env data
  | .ptr d => UpdateFromObject h (some d)
  | .val d => UpdateFromObject h (some d)
  | .runtimeObj o => UpdateFromObject h o
  | .mp m => UpdateFromUnstructured h env m
  | .other => .error .errTypeUpdate

end daemonset

namespace persistentvolumeclaim

open K8s

/-- corev1.PersistentVolumeClaim, restricted to the metadata fields the
embedded code reads and writes. -/
structure PVC where
  name : String
  ns : String
  resourceVersion : String
  uid : String
  body : String
  deriving DecidableEq

/-- The handler configuration the create path reads. -/
structure Handler where
  ns : String
  deriving DecidableEq

/-- External collaborators of the persistentvolumeclaim create path. -/
structure Env where
  readFile : String → Except Err String
  yamlToJSON : String → Except Err String
  unmarshal : String → Except Err PVC
  fromUnstructured : UMap → Except Err PVC

/-- The single Create request the pvc create path delegates to. -/
structure CreateCall where
  ns : String
  pvc : PVC
  deriving DecidableEq

/-- The argument of persistentvolumeclaim Handler.Create, by dynamic type. -/
inductive CreateArg where
  | str (s : String)
  | bytes (data : String)
  | ptr (p : PVC)
  | val (p : PVC)
  | runtimeObj (o : Option PVC)
  | mp (m : UMap)
  | other

/-- persistentvolumeclaim Handler.createPVC: resolve namespace, clear
resourceVersion and uid, issue the Create request. -/
def createPVC (h : Handler) (p : PVC) : Except Err CreateCall :=
  let ns := if p.ns.length != 0 then p.ns else h.ns
  .ok { ns := ns, pvc := { p with resourceVersion := "", uid := "" } }

/-- persistentvolumeclaim Handler.CreateFromBytes. -/
def CreateFromBytes (h : Handler) (env : Env) (data : String) : Except Err CreateCall := do
  let pvcJson ← env.yamlToJSON data
  let pvc ← env.unmarshal pvcJson
  createPVC h pvc

/-- persistentvolumeclaim Handler.CreateFromFile. -/
def CreateFromFile (h : Handler) (env : Env) (filename : String) : Except Err CreateCall := do
  let data ← env.readFile filename
  CreateFromBytes h env data

/-- persistentvolumeclaim Handler.CreateFromObject. -/
def CreateFromObject (h : Handler) (o : Option PVC) : Except Err CreateCall :=
  match o with
  | some pvc => createPVC h pvc
  | none => .error (.assertErr "object is not *corev1.PersistentVolumeClaim")

/-- persistentvolumeclaim Handler.CreateFromUnstructured. -/
def CreateFromUnstructured (h : Handler) (env : Env) (m : UMap) : Except Err CreateCall := do
  let pvc ← env.fromUnstructured m
  createPVC h pvc

/-- persistentvolumeclaim Handler.Create: type-switch dispatch. -/
def Create (h : Handler) (env : Env) (obj : CreateArg) : Except Err CreateCall :=
  match obj with
  | .str s => CreateFromFile h env s
  | .bytes data => CreateFromBytes h env data
  | .ptr p => CreateFromObject h (some p)
  | .val p => CreateFromObject h (some p)
  | .runtimeObj o => CreateFromObject h o
  | .mp m => CreateFromUnstructured h env m
  | .other => .error .errTypeCreate

end persistentvolumeclaim

namespace node

open K8s

/-- corev1.Node, restricted to the fields the delete path reads.  Nodes are
cluster-scoped, so only the name is used. -/
structure Node where
  name : String
  body : String
  deriving DecidableEq

/-- External collaborators of the node delete path. -/
structure Env where
  readFile : String → Except Err String
  yamlToJSON : String → Except Err String
  unmarshal : String → Except Err Node
  fromUnstructured : UMap → Except Err Node

/-- The single Delete request the node delete path delegates to
(cluster-scoped: name only). -/
inductive DeleteCall where
  | byName (name : String)
  deriving DecidableEq

/-- The argument of node Handler.Delete, by dynamic type. -/
inductive DeleteArg where
  | str (s : String)
  | bytes (data : String)
  | ptr (n : Node)
  | val (n : Node)
  | runtimeObj (o : Option Node)
  | mp (m : UMap)
  | other

/-- node Handler.DeleteByName: issue the Delete request with the given
name. -/
def DeleteByName (name : String) : Except Err DeleteCall :=
  .ok (.byName name)

/-- node Handler.deleteNode: issue the Delete request with the object
name. -/
def deleteNode (n : Node) : Except Err DeleteCall :=
  .ok (.byName n.name)

/-- node Handler.DeleteFromBytes. -/
def DeleteFromBytes (env : Env) (data : String) : Except Err DeleteCall := do
  let nodeJson ← env.yamlToJSON data
  let n ← env.unmarshal nodeJson
  deleteNode n

/-- node Handler.DeleteFromFile. -/
def DeleteFromFile (env : Env) (filename : String) : Except Err DeleteCall := do
  let data ← env.readFile filename
  DeleteFromBytes env data

/-- node Handler.DeleteFromObject. -/
def DeleteFromObject (o : Option Node) : Except Err DeleteCall :=
  match o with
  | some n => deleteNode n
  | none => .error (.assertErr "object is not *corev1.Node")

/-- node Handler.DeleteFromUnstructured. -/
def DeleteFromUnstructured (env : Env) (m : UMap) : Except Err DeleteCall := do
  let n ← env.fromUnstructured m
  deleteNode n

/-- node Handler.Delete: type-switch dispatch; a string argument is routed
to DeleteByName (the string is a resource name, not a file path), an
unrecognized type to ERR_TYPE_DELETE. -/
def Delete (env : Env) (obj : DeleteArg) : Except Err DeleteCall :=
  match obj with
  | .str s => DeleteByName s
  | .bytes data => DeleteFromBytes env data
  | .ptr n => DeleteFromObject (some n)
  | .val n => DeleteFromObject (some n)
  | .runtimeObj o => DeleteFromObject o
  | .mp m => DeleteFromUnstructured env m
  | .other => .error .errTypeDelete

end node

namespace rolebinding

open K8s

/-- rbacv1.RoleBinding, restricted to the metadata fields the delete path
reads: name and namespace. -/
structure RB where
  name : String
  ns : String
  body : String
  deriving DecidableEq

/-- The handler configuration the delete path reads. -/
structure Handler where
  ns : String
  deriving DecidableEq

/-- External collaborators of the rolebinding delete path. -/
structure Env where
  readFile : String → Except Err String
  yamlToJSON : String → Except Err String
  unmarshal : String → Except Err RB
  fromUnstructured : UMap → Except Err RB

/-- The single Delete request the rolebinding delete path delegates to:
a namespaced delete of the given name. -/
inductive DeleteCall where
  | inNamespace (ns name : String)
  deriving DecidableEq

/-- The argument of rolebinding Handler.Delete, by dynamic type. -/
inductive DeleteArg where
  | str (s : String)
  | bytes (data : String)
  | ptr (r : RB)
  | val (r : RB)
  | runtimeObj (o : Option RB)
  | unstrPtr (u : Unstr)
  | unstrVal (u : Unstr)
  | mp (m : UMap)
  | other

/-- rolebinding Handler.DeleteByName: delete the given name in the handler
namespace. -/
def DeleteByName (h : Handler) (name : String) : Except Err DeleteCall :=
  .ok (.inNamespace h.ns name)

/-- rolebinding Handler.deleteRolebinding: resolve the target namespace from
the object metadata (falling back to the handler namespace) and issue the
Delete request. -/
def deleteRolebinding (h : Handler) (rb : RB) : Except Err DeleteCall :=
  let ns := if rb.ns.length != 0 then rb.ns else h.ns
  .ok (.inNamespace ns rb.name)

/-- rolebinding Handler.DeleteFromBytes. -/
def DeleteFromBytes (h : Handler) (env : Env) (data : String) : Except Err DeleteCall := do
  let rbJson ← env.yamlToJSON data
  let rb ← env.unmarshal rbJson
  deleteRolebinding h rb

/-- rolebinding Handler.DeleteFromFile. -/
def DeleteFromFile (h : Handler) (env : Env) (filename : String) : Except Err DeleteCall := do
  let data ← env.readFile filename
  DeleteFromBytes h env data

/-- rolebinding Handler.DeleteFromObject. -/
def DeleteFromObject (h : Handler) (o : Option RB) : Except Err DeleteCall :=
  match o with
  | some rb => deleteRolebinding h rb
  | none => .error (.assertErr "object is not *rbacv1.RoleBinding")

/-- rolebinding Handler.DeleteFromUnstructured. -/
def DeleteFromUnstructured (h : Handler) (env : Env) (u : Unstr) : Except Err DeleteCall := do
  let rb ← env.fromUnstructured u.content
  deleteRolebinding h rb

/-- rolebinding Handler.DeleteFromMap. -/
def DeleteFromMap (h : Handler) (env : Env) (m : UMap) : Except Err DeleteCall := do
  let rb ← env.fromUnstructured m
  deleteRolebinding h rb

/-- rolebinding Handler.Delete: type-switch dispatch; a string argument is
routed to DeleteByName (the string is a resource name, not a file path). -/
def Delete (h : Handler) (env : Env) (obj : DeleteArg) : Except Err DeleteCall :=
  match obj with
  | .str s => DeleteByName h s
  | .bytes data => DeleteFromBytes h env data
  | .ptr r => DeleteFromObject h (some r)
  | .val r => DeleteFromObject h (some r)
  | .runtimeObj o => DeleteFromObject h o
  | .unstrPtr u => DeleteFromUnstructured h env u
  | .unstrVal u => DeleteFromUnstructured h env u
  | .mp m => DeleteFromMap h env m
  | .other => .error .errTypeDelete

end rolebinding

namespace configmap

open K8s

/-- corev1.ConfigMap, restricted to the metadata fields the get path
reads. -/
structure CM where
  name : String
  ns : String
  body : String
  deriving DecidableEq

/-- The handler configuration the get path reads. -/
structure Handler where
  ns : String
  deriving DecidableEq

/-- External collaborators of the configmap get path. -/
structure Env where
  readFile : String → Except Err String
  yamlToJSON : String → Except Err String
  unmarshal : String → Except Err CM
  fromUnstructured : UMap → Except Err CM

/-- The single Get request the configmap get path delegates to. -/
inductive GetCall where
  | inNamespace (ns name : String)
  deriving DecidableEq

/-- The argument of configmap Handler.Get, by dynamic type.  The Get
dispatcher has no runtime.Object or unstructured.Unstructured cases. -/
inductive GetArg where
  | str (s : String)
  | bytes (data : String)
  | ptr (c : CM)
  | val (c : CM)
  | mp (m : UMap)
  | other

/-- configmap Handler.GetByName: get the given name in the handler
namespace. -/
def GetByName (h : Handler) (name : String) : Except Err GetCall :=
  .ok (.inNamespace h.ns name)

/-- configmap Handler.getConfigmap: resolve the target namespace from the
object metadata (falling back to the handler namespace) and issue the Get
request. -/
def getConfigmap (h : Handler) (cm : CM) : Except Err GetCall :=
  let ns := if cm.ns.length != 0 then cm.ns else h.ns
  .ok (.inNamespace ns cm.name)

/-- configmap Handler.GetFromBytes. -/
def GetFromBytes (h : Handler) (env : Env) (data : String) : Except Err GetCall := do
  let cmJson ← env.yamlToJSON data
  let cm ← env.unmarshal cmJson
  getConfigmap h cm

/-- configmap Handler.GetFromFile. -/
def GetFromFile (h : Handler) (env : Env) (filename : String) : Except Err GetCall := do
  let data ← env.readFile filename
  GetFromBytes h env data

/-- configmap Handler.GetFromObject. -/
def GetFromObject (h : Handler) (o : Option CM) : Except Err GetCall :=
  match o with
  | some cm => getConfigmap h cm
  | none => .error (.assertErr "object is not *corev1.ConfigMap")

/-- configmap Handler.GetFromUnstructured. -/
def GetFromUnstructured (h : Handler) (env : Env) (m : UMap) : Except Err GetCall := do
  let cm ← env.fromUnstructured m
  getConfigmap h cm

/-- configmap Handler.Get: type-switch dispatch; a string argument is routed
to GetByName (the string is a resource name, not a file path). -/
def Get (h : Handler) (env : Env) (obj : GetArg) : Except Err GetCall :=
  match obj with
  | .str s => GetByName h s
  | .bytes data => GetFromBytes h env data
  | .ptr c => GetFromObject h (some c)
  | .val c => GetFromObject h (some c)
  | .mp m => GetFromUnstructured h env m
  | .other => .error .errTypeGet

end configmap

namespace dynamic

open K8s

/-- A group/version/kind triple as resolved by the REST mapper. -/
structure GVK where
  group : String
  version : String
  kind : String
  deriving DecidableEq

/-- A group/version/resource triple as resolved by the REST mapper. -/
structure GVR where
  group : String
  version : String
  resource : String
  deriving DecidableEq

/-- An unstructured object as the dynamic handler sees it: GetName() and
GetNamespace() plus the uninterpreted remaining content consumed by the REST
mapper lookups. -/
structure UObj where
  name : String
  ns : String
  content : UMap
  deriving DecidableEq

/-- The dynamic handler configuration the delete path reads. -/
structure Handler where
  ns : String
  deriving DecidableEq

/-- The REST-mapping collaborators of the dynamic delete path:
utilrestmapper.FindGVR, utilrestmapper.FindGVK and
utilrestmapper.IsNamespaced. -/
structure Env where
  findGVR : UObj → Except Err GVR
  findGVK : UObj → Except Err GVK
  isNamespaced : GVK → Except Err Bool

/-- The single Delete request the dynamic delete path delegates to: either
namespaced or cluster-scoped, recording whether the background propagation
policy was set (for Job and CronJob kinds). -/
inductive DeleteCall where
  | namespaced (gvr : GVR) (ns name : String) (propagationBackground : Bool)
  | clusterScoped (gvr : GVR) (name : String) (propagationBackground : Bool)
  deriving DecidableEq

/-- dynamic Handler.deleteUnstructured: resolve GVR, GVK and namespace
scoping through the REST mapper; set the background propagation policy for
Job and CronJob kinds; for a namespaced resource target the namespace from
the object metadata (falling back to the handler namespace), otherwise
issue a cluster-scoped delete. -/
def deleteUnstructured (h : Handler) (env : Env) (obj : UObj) : Except Err DeleteCall := do
  let gvr ← env.findGVR obj
  let gvk ← env.findGVK obj
  let isNs ← env.isNamespaced gvk
  let bg := gvk.kind == "Job" || gvk.kind == "CronJob"
  if isNs then
    let ns := if obj.ns.length != 0 then obj.ns else h.ns
    .ok (.namespaced gvr ns obj.name bg)
  else
    .ok (.clusterScoped gvr obj.name bg)

end dynamic

namespace nswatch

open K8s

/-- watch.EventType: the type tag of an event delivered on the watch
channel. -/
inductive EventType where
  | added
  | modified
  | deleted
  | bookmark
  | errorEv
  deriving DecidableEq

/-- watch.Event: a type tag and the event object. -/
structure Event (α : Type) where
  etype : EventType
  eobj : α
  deriving DecidableEq

/-- One interaction of the watch loop with the server: either the attempt
to open a watch connection fails with an error, or a connection is opened
and delivers a finite list of events before the server closes the
channel. -/
inductive Session (α ε : Type) where
  | connectFail (e : ε)
  | connected (evs : List (Event α))
  deriving DecidableEq

/-- The observable behaviour of a run of the watch loop over a finite
trace of sessions: the callback outputs produced in order, the number of
successfully opened connections, and the loop return value (`some e` when
the loop returned with a connection error, `none` when the trace was
exhausted with the loop still running). -/
structure RunResult (β ε : Type) where
  outputs : List β
  conns : Nat
  result : Option ε
  deriving DecidableEq

/-- The event dispatch inside watchNamespace: Added events invoke the
add callback, Modified the modify callback, Deleted the delete callback;
Bookmark and Error events only log and invoke no callback. -/
def handleEvent {α β : Type} (addFunc modifyFunc deleteFunc : α → β)
    (e : Event α) : Option β :=
  match e.etype with
  | .added => some (addFunc e.eobj)
  | .modified => some (modifyFunc e.eobj)
  | .deleted => some (deleteFunc e.eobj)
  | .bookmark => none
  | .errorEv => none

/-- namespace Handler.watchNamespace: loop forever; each iteration opens a
watch connection (returning its error if the open fails), dispatches every
event received until the channel closes, and then unconditionally
reconnects.  The recursion consumes the finite session trace; an exhausted
trace leaves the loop still running (`result = none`). -/
def watchNamespace {α β ε : Type} (addFunc modifyFunc deleteFunc : α → β) :
    List (Session α ε) → RunResult β ε
  | [] => { outputs := [], conns := 0, result := none }
  | .connectFail e :: _ => { outputs := [], conns := 0, result := some e }
  | .connected evs :: rest =>
    let r := watchNamespace addFunc modifyFunc deleteFunc rest
    { outputs := evs.filterMap (handleEvent addFunc modifyFunc deleteFunc) ++ r.outputs,
      conns := r.conns + 1,
      result := r.result }

/-- namespace Handler.WatchByLabel: delegate to watchNamespace (the label
selector only shapes the list options passed to the SDK). -/
def WatchByLabel {α β ε : Type} (_labels : String)
    (addFunc modifyFunc deleteFunc : α → β)
    (trace : List (Session α ε)) : RunResult β ε :=
  watchNamespace addFunc modifyFunc deleteFunc trace

/-- namespace Handler.WatchByName: delegate to watchNamespace with a
single-object selector. -/
def WatchByName {α β ε : Type} (_name : String)
    (addFunc modifyFunc deleteFunc : α → β)
    (trace : List (Session α ε)) : RunResult β ε :=
  watchNamespace addFunc modifyFunc deleteFunc trace

/-- namespace Handler.Watch: calls WatchByLabel with an empty label
selector, passing the callbacks in the order (addFunc, deleteFunc,
modifyFunc) as the source does. -/
def Watch {α β ε : Type} (addFunc modifyFunc deleteFunc : α → β)
    (trace : List (Session α ε)) : RunResult β ε :=
  WatchByLabel "" addFunc deleteFunc modifyFunc trace

end nswatch

namespace Sample

open K8s

/-- A concrete persistentvolume environment for evaluating the embedding:
reads always succeed, YAML conversion is the identity, marshalling returns
the object body, and the two-way merge patch of identical documents is the
empty JSON object. -/
def pvEnv : persistentvolume.Env where
  readFile := fun _ => .ok "patchdoc"
  yamlToJSON := fun s => .ok s
  marshal := fun p => .ok p.body
  createTwoWayMergePatch := fun jo jm => if jo == jm then .ok "{}" else .ok "diffdata"
  fromUnstructured := fun m => .ok { name := "pv-from-map", body := m }

/-- A concrete clusterrole environment whose create calls fail with
AlreadyExists, driving Apply onto its update path. -/
def crEnvExists : clusterrole.Env where
  readFile := fun _ => .ok "patchdoc"
  yamlToJSON := fun s => .ok s
  marshal := fun c => .ok c.body
  createTwoWayMergePatch := fun jo jm => if jo == jm then .ok "{}" else .ok "diffdata"
  fromUnstructured := fun m => .ok { name := "cr-from-map", body := m }
  createCR := fun _ => .error .alreadyExists
  updateCR := fun c => .ok c
  createFromFile := fun _ => .error .alreadyExists
  updateFromFile := fun f => .ok { name := f, body := "fromfile" }
  createFromBytes := fun _ => .error .alreadyExists
  updateFromBytes := fun d => .ok { name := d, body := "frombytes" }

/-- A concrete clusterrole environment whose create calls succeed, so
Apply never reaches its update path. -/
def crEnvFresh : clusterrole.Env where
  readFile := fun _ => .ok "patchdoc"
  yamlToJSON := fun s => .ok s
  marshal := fun c => .ok c.body
  createTwoWayMergePatch := fun jo jm => if jo == jm then .ok "{}" else .ok "diffdata"
  fromUnstructured := fun m => .ok { name := "cr-from-map", body := m }
  createCR := fun c => .ok c
  updateCR := fun c => .ok c
  createFromFile := fun f => .ok { name := f, body := "fromfile" }
  updateFromFile := fun f => .ok { name := f, body := "fromfile" }
  createFromBytes := fun d => .ok { name := d, body := "frombytes" }
  updateFromBytes := fun d => .ok { name := d, body := "frombytes" }

/-- A concrete deployment environment: reads return the file name as
content, YAML conversion is the identity, and decoding yields a fixed
object carrying a stale resourceVersion and uid. -/
def deployEnv : deployment.Env where
  readFile := fun f => .ok f
  yamlToJSON := fun s => .ok s
  unmarshal := fun j => .ok { name := "web", ns := "prod", resourceVersion := "42", uid := "u42", body := j }
  fromUnstructured := fun m => .ok { name := "web-map", ns := "", resourceVersion := "7", uid := "u7", body := m }

/-- A concrete daemonset environment. -/
def dsEnv : daemonset.Env where
  readFile := fun f => .ok f
  yamlToJSON := fun s => .ok s
  unmarshal := fun j => .ok { name := "agent", ns := "kube-system", resourceVersion := "9", uid := "u9", body := j }
  fromUnstructured := fun m => .ok { name := "agent-map", ns := "", resourceVersion := "8", uid := "u8", body := m }

/-- A concrete persistentvolumeclaim environment. -/
def pvcEnv : persistentvolumeclaim.Env where
  readFile := fun f => .ok f
  yamlToJSON := fun s => .ok s
  unmarshal := fun j => .ok { name := "data", ns := "apps", resourceVersion := "3", uid := "u3", body := j }
  fromUnstructured := fun m => .ok { name := "data-map", ns := "", resourceVersion := "4", uid := "u4", body := m }

/-- A concrete rolebinding environment in which every file read yields a
document that decodes to a rolebinding named "actual-rb": used to exhibit
that Delete on a string does not read the file. -/
def rbEnv : rolebinding.Env where
  readFile := fun _ => .ok "rbdoc"
  yamlToJSON := fun s => .ok s
  unmarshal := fun _ => .ok { name := "actual-rb", ns := "", body := "decoded" }
  fromUnstructured := fun m => .ok { name := "rb-map", ns := "", body := m }

/-- A concrete configmap environment. -/
def cmEnv : configmap.Env where
  readFile := fun _ => .ok "cmdoc"
  yamlToJSON := fun s => .ok s
  unmarshal := fun _ => .ok { name := "actual-cm", ns := "", body := "decoded" }
  fromUnstructured := fun m => .ok { name := "cm-map", ns := "", body := m }

/-- A concrete dynamic-handler environment resolving every object to the
namespaced deployments resource. -/
def dynEnv : dynamic.Env where
  findGVR := fun _ => .ok { group := "apps", version := "v1", resource := "deployments" }
  findGVK := fun _ => .ok { group := "apps", version := "v1", kind := "Deployment" }
  isNamespaced := fun _ => .ok true

end Sample

/-- A Go byte slice has zero length exactly when, read as a string, it is
the empty string (used to relate the `len(data) == 0` tests of the source
to emptiness of the modelled string). -/
theorem string_length_zero_iff (s : String) : s.length = 0 ↔ s = "" := by
  constructor
  · intro h
    apply String.ext
    have hd : s.data.length = 0 := by
      simpa [String.length_data] using h
    simpa using List.length_eq_zero.mp hd
  · intro h
    subst h
    rfl

/-- C1.  The claim states that when the first patch option is
MergePatchType, Patch on file-path or raw-bytes input submits the patch
under the JSON-merge-patch type.  The persistentvolume handler violates
this: its jsonMergePatch helper issues the request with
types.StrategicMergePatchType (contradicting its own doc comment), while
the otherwise identical clusterrole handler correctly uses
types.MergePatchType.  Evaluated at a concrete raw-bytes patch with
patchOptions = [MergePatchType]. -/
theorem c1_pv_merge_option_submits_strategic_type :
    persistentvolume.Patch Sample.pvEnv { name := "pv1", body := "pvbody" }
        (.bytes "patchdoc") [K8s.MergePatchType]
      = .ok (.patchCall "pv1" K8s.StrategicMergePatchType "patchdoc")
    ∧ K8s.StrategicMergePatchType ≠ K8s.MergePatchType
    ∧ persistentvolume.Patch Sample.pvEnv { name := "pv1", body := "pvbody" }
        (.str "patch.yaml") [K8s.MergePatchType]
      = .ok (.patchCall "pv1" K8s.StrategicMergePatchType "patchdoc")
    ∧ clusterrole.Patch Sample.crEnvExists { name := "cr1", body := "crbody" }
        (.bytes "patchdoc") [K8s.MergePatchType]
      = .ok (.patchCall "cr1" K8s.MergePatchType "patchdoc") := by
  refine ⟨by rfl, by decide, by rfl, by rfl⟩

/-- C2.  The claim states that Handler.Watch(addFunc, modifyFunc,
deleteFunc) invokes modifyFunc for a Modified event and deleteFunc for a
Deleted event.  The code passes its callbacks to WatchByLabel in the order
(addFunc, deleteFunc, modifyFunc), so a Modified event invokes the
deleteFunc of the caller and a Deleted event its modifyFunc;
Added/Bookmark/Error events behave as documented, and WatchByLabel itself
dispatches correctly.  Evaluated at concrete single-event traces with
distinguishable callbacks. -/
theorem c2_watch_swaps_modify_and_delete_callbacks :
    (nswatch.Watch (fun _ : Nat => "add") (fun _ => "modify") (fun _ => "delete")
        ([.connected [{ etype := .modified, eobj := 0 }]] : List (nswatch.Session Nat K8s.Err))).outputs
      = ["delete"]
    ∧ (nswatch.Watch (fun _ : Nat => "add") (fun _ => "modify") (fun _ => "delete")
        ([.connected [{ etype := .deleted, eobj := 0 }]] : List (nswatch.Session Nat K8s.Err))).outputs
      = ["modify"]
    ∧ (nswatch.Watch (fun _ : Nat => "add") (fun _ => "modify") (fun _ => "delete")
        ([.connected [{ etype := .added, eobj := 0 }]] : List (nswatch.Session Nat K8s.Err))).outputs
      = ["add"]
    ∧ (nswatch.Watch (fun _ : Nat => "add") (fun _ => "modify") (fun _ => "delete")
        ([.connected [{ etype := .bookmark, eobj := 0 }, { etype := .errorEv, eobj := 0 }]]
          : List (nswatch.Session Nat K8s.Err))).outputs
      = []
    ∧ (nswatch.WatchByLabel "" (fun _ : Nat => "add") (fun _ => "modify") (fun _ => "delete")
        ([.connected [{ etype := .modified, eobj := 0 }]] : List (nswatch.Session Nat K8s.Err))).outputs
      = ["modify"]
    ∧ ("delete" : String) ≠ "modify" := by
  refine ⟨by rfl, by rfl, by rfl, by rfl, by rfl, by decide⟩

/-- C4.  The watch loop returns only when opening a new watch connection
fails: over a trace of any number of connections whose event channels
close, followed by a failing open, the loop dispatches all sessions,
reopens a connection after every channel closure (one successful
connection per closed session, with no backoff state or retry bound in
scope), and returns exactly the connect error; over a trace of closures
only, the loop is still running. -/
theorem c4_watch_loop_reconnects_until_connect_failure {α β : Type}
    (addFunc modifyFunc deleteFunc : α → β)
    (ss : List (List (nswatch.Event α))) (e : K8s.Err)
    (rest : List (nswatch.Session α K8s.Err)) :
    (nswatch.watchNamespace addFunc modifyFunc deleteFunc
        (ss.map nswatch.Session.connected ++ nswatch.Session.connectFail e :: rest)).result
      = some e
    ∧ (nswatch.watchNamespace addFunc modifyFunc deleteFunc
        (ss.map nswatch.Session.connected ++ nswatch.Session.connectFail e :: rest)).conns
      = ss.length
    ∧ (nswatch.watchNamespace addFunc modifyFunc deleteFunc
        (ss.map nswatch.Session.connected : List (nswatch.Session α K8s.Err))).result = none
    ∧ (nswatch.watchNamespace addFunc modifyFunc deleteFunc
        (ss.map nswatch.Session.connected : List (nswatch.Session α K8s.Err))).conns = ss.length := by
  induction ss with
  | nil => simp [nswatch.watchNamespace]
  | cons hd tl ih =>
    simpa [nswatch.watchNamespace] using ih

/-- C7.  Every embedded operation returns its sentinel type error on an
argument whose dynamic type matches none of the documented input shapes;
in the embedding an error result is by construction one that delegates no
cluster-API request, so no state is touched. -/
theorem c7_unrecognized_argument_yields_sentinel_error :
    (∀ (h : deployment.Handler) (env : deployment.Env),
        deployment.Update h env .other = .error K8s.Err.errTypeUpdate)
    ∧ (∀ (env : node.Env), node.Delete env .other = .error K8s.Err.errTypeDelete)
    ∧ (∀ (env : persistentvolume.Env) (o : persistentvolume.PV) (opts : List String),
        persistentvolume.Patch env o .other opts = .error K8s.Err.errInvalidPathType)
    ∧ (∀ (h : daemonset.Handler) (env : daemonset.Env),
        daemonset.Update h env .other = .error K8s.Err.errTypeUpdate)
    ∧ (∀ (h : persistentvolumeclaim.Handler) (env : persistentvolumeclaim.Env),
        persistentvolumeclaim.Create h env .other = .error K8s.Err.errTypeCreate)
    ∧ (∀ (h : rolebinding.Handler) (env : rolebinding.Env),
        rolebinding.Delete h env .other = .error K8s.Err.errTypeDelete)
    ∧ (∀ (h : configmap.Handler) (env : configmap.Env),
        configmap.Get h env .other = .error K8s.Err.errTypeGet)
    ∧ (∀ (env : clusterrole.Env) (o : clusterrole.CR) (opts : List String),
        clusterrole.Patch env o .other opts = .error K8s.Err.errInvalidPathType)
    ∧ (∀ (env : clusterrole.Env),
        (clusterrole.Apply env .other).res = .error K8s.Err.errTypeApply
        ∧ (clusterrole.Apply env .other).updateAttempted = false) := by
  exact ⟨fun _ _ => rfl, fun _ => rfl, fun _ _ _ => rfl, fun _ _ => rfl, fun _ _ => rfl,
    fun _ _ => rfl, fun _ _ => rfl, fun _ _ _ => rfl, fun _ => ⟨rfl, rfl⟩⟩

/-- C3, counterexample.  A string argument to rolebinding Delete (and
configmap Get) is NOT treated as a file path: in an environment where
every file decodes to an object named "actual-rb" (resp. "actual-cm"),
Delete(s)/Get(s) target the string itself as the resource name, while the
explicit DeleteFromFile/GetFromFile entry points target the decoded
object. -/
theorem c3_counterexample_delete_get_string_is_name :
    rolebinding.Delete { ns := "default" } Sample.rbEnv (.str "rb.yaml")
      = .ok (.inNamespace "default" "rb.yaml")
    ∧ rolebinding.DeleteFromFile { ns := "default" } Sample.rbEnv "rb.yaml"
      = .ok (.inNamespace "default" "actual-rb")
    ∧ (rolebinding.DeleteCall.inNamespace "default" "rb.yaml")
      ≠ .inNamespace "default" "actual-rb"
    ∧ configmap.Get { ns := "default" } Sample.cmEnv (.str "cm.yaml")
      = .ok (.inNamespace "default" "cm.yaml")
    ∧ configmap.GetFromFile { ns := "default" } Sample.cmEnv "cm.yaml"
      = .ok (.inNamespace "default" "actual-cm") := by
  refine ⟨by rfl, by rfl, by decide, by rfl, by rfl⟩

/-- C3, amended.  A string argument is treated as a file path (contents
read, converted from YAML, operation delegated on the decoded object) by
Create, Update, Apply and Patch; Delete and Get instead treat a string as
a resource name and delegate to DeleteByName/GetByName against the
configured namespace of the handler. -/
theorem c3_string_argument_dispatch :
    (∀ (h : deployment.Handler) (env : deployment.Env) (s data j : String)
        (d : deployment.Deployment),
        env.readFile s = .ok data → env.yamlToJSON data = .ok j →
        env.unmarshal j = .ok d →
        deployment.Update h env (.str s) = deployment.updateDeployment h d)
    ∧ (∀ (h : persistentvolumeclaim.Handler) (env : persistentvolumeclaim.Env)
        (s data j : String) (p : persistentvolumeclaim.PVC),
        env.readFile s = .ok data → env.yamlToJSON data = .ok j →
        env.unmarshal j = .ok p →
        persistentvolumeclaim.Create h env (.str s) = persistentvolumeclaim.createPVC h p)
    ∧ (∀ (env : clusterrole.Env) (s : String),
        clusterrole.Apply env (.str s) = clusterrole.ApplyFromFile env s)
    ∧ (∀ (env : persistentvolume.Env) (o : persistentvolume.PV) (s data j : String),
        env.readFile s = .ok data → env.yamlToJSON data = .ok j →
        persistentvolume.Patch env o (.str s) [] = persistentvolume.strategicMergePatch o j)
    ∧ (∀ (h : rolebinding.Handler) (env : rolebinding.Env) (s : String),
        rolebinding.Delete h env (.str s) = .ok (.inNamespace h.ns s))
    ∧ (∀ (h : configmap.Handler) (env : configmap.Env) (s : String),
        configmap.Get h env (.str s) = .ok (.inNamespace h.ns s)) := by
  refine ⟨?_, ?_, fun _ _ => rfl, ?_, fun _ _ _ => rfl, fun _ _ _ => rfl⟩
  · intro h env s data j d h1 h2 h3
    simp [deployment.Update, deployment.UpdateFromFile, deployment.UpdateFromBytes,
      bind, Except.bind, h1, h2, h3]
  · intro h env s data j p h1 h2 h3
    simp [persistentvolumeclaim.Create, persistentvolumeclaim.CreateFromFile,
      persistentvolumeclaim.CreateFromBytes, bind, Except.bind, h1, h2, h3]
  · intro env o s data j h1 h2
    simp [persistentvolume.Patch, bind, Except.bind, h1, h2, K8s.firstOptIs]

/-- Witness for the C3 theorem: at a concrete file name and the sample
environments, Update on a string equals the delegated update of the
decoded object, with every hypothesis discharged by evaluation. -/
theorem c3_string_argument_dispatch_witness :
    Sample.deployEnv.readFile "dep.yaml" = .ok "dep.yaml"
    ∧ Sample.deployEnv.yamlToJSON "dep.yaml" = .ok "dep.yaml"
    ∧ Sample.deployEnv.unmarshal "dep.yaml"
      = .ok { name := "web", ns := "prod", resourceVersion := "42", uid := "u42", body := "dep.yaml" }
    ∧ deployment.Update { ns := "hns" } Sample.deployEnv (.str "dep.yaml")
      = deployment.updateDeployment { ns := "hns" }
          { name := "web", ns := "prod", resourceVersion := "42", uid := "u42", body := "dep.yaml" } :=
  ⟨rfl, rfl, rfl, c3_string_argument_dispatch.1 _ _ _ _ _ _ rfl rfl rfl⟩

/-- C5.  On typed, unstructured and map patch arguments, Patch delegates to
diffMergePatch, which marshals both objects, computes the two-way
strategic merge patch of the marshalled documents, and, when the diff is
nonempty, submits it under the JSON-merge-patch type exactly when the
first patch option is MergePatchType and under the strategic-merge-patch
type otherwise; the clusterrole handler behaves identically. -/
theorem c5_diff_merge_patch_type_selection :
    (∀ (env : persistentvolume.Env) (o m : persistentvolume.PV) (opts : List String)
        (jo jm d : String),
        env.marshal o = .ok jo → env.marshal m = .ok jm →
        env.createTwoWayMergePatch jo jm = .ok d → d.length ≠ 0 → d ≠ "{}" →
        persistentvolume.diffMergePatch env o m opts
          = .ok (.patchCall o.name
              (if K8s.firstOptIs opts K8s.MergePatchType then K8s.MergePatchType
                else K8s.StrategicMergePatchType) d))
    ∧ (∀ (env : persistentvolume.Env) (o m : persistentvolume.PV) (opts : List String),
        persistentvolume.Patch env o (.pvPtr m) opts
          = persistentvolume.diffMergePatch env o m opts
        ∧ persistentvolume.Patch env o (.pvVal m) opts
          = persistentvolume.diffMergePatch env o m opts
        ∧ persistentvolume.Patch env o (.runtimeObj (some m)) opts
          = persistentvolume.diffMergePatch env o m opts)
    ∧ (∀ (env : persistentvolume.Env) (o : persistentvolume.PV) (u : K8s.UMap)
        (opts : List String) (m : persistentvolume.PV),
        env.fromUnstructured u = .ok m →
        persistentvolume.Patch env o (.mp u) opts
          = persistentvolume.diffMergePatch env o m opts
        ∧ persistentvolume.Patch env o (.unstrPtr { content := u }) opts
          = persistentvolume.diffMergePatch env o m opts
        ∧ persistentvolume.Patch env o (.unstrVal { content := u }) opts
          = persistentvolume.diffMergePatch env o m opts)
    ∧ (∀ (env : clusterrole.Env) (o m : clusterrole.CR) (opts : List String)
        (jo jm d : String),
        env.marshal o = .ok jo → env.marshal m = .ok jm →
        env.createTwoWayMergePatch jo jm = .ok d → d.length ≠ 0 → d ≠ "{}" →
        clusterrole.diffMergePatch env o m opts
          = .ok (.patchCall o.name
              (if K8s.firstOptIs opts K8s.MergePatchType then K8s.MergePatchType
                else K8s.StrategicMergePatchType) d))
    ∧ (∀ (env : clusterrole.Env) (o m : clusterrole.CR) (opts : List String),
        clusterrole.Patch env o (.crPtr m) opts = clusterrole.diffMergePatch env o m opts
        ∧ clusterrole.Patch env o (.crVal m) opts = clusterrole.diffMergePatch env o m opts) := by
  refine ⟨?_, fun _ _ _ _ => ⟨rfl, rfl, rfl⟩, ?_, ?_, fun _ _ _ _ => ⟨rfl, rfl⟩⟩
  · intro env o m opts jo jm d h1 h2 h3 h4 h5
    simp only [persistentvolume.diffMergePatch, bind, Except.bind, h1, h2, h3]
    simp [h4, h5]
    split <;> rfl
  · intro env o u opts m h1
    refine ⟨?_, ?_, ?_⟩ <;>
      simp [persistentvolume.Patch, bind, Except.bind, h1]
  · intro env o m opts jo jm d h1 h2 h3 h4 h5
    simp only [clusterrole.diffMergePatch, bind, Except.bind, h1, h2, h3]
    simp [h4, h5]
    split <;> rfl

/-- Witness for the C5 theorem: at the sample environment and two objects
with distinct marshalled bodies, the computed diff is nonempty and the
MergePatchType option selects the JSON-merge-patch submission. -/
theorem c5_diff_merge_patch_type_selection_witness :
    Sample.pvEnv.marshal { name := "pv1", body := "obody" } = .ok "obody"
    ∧ Sample.pvEnv.marshal { name := "pv2", body := "mbody" } = .ok "mbody"
    ∧ Sample.pvEnv.createTwoWayMergePatch "obody" "mbody" = .ok "diffdata"
    ∧ ("diffdata" : String).length ≠ 0
    ∧ ("diffdata" : String) ≠ "{}"
    ∧ persistentvolume.diffMergePatch Sample.pvEnv { name := "pv1", body := "obody" }
        { name := "pv2", body := "mbody" } [K8s.MergePatchType]
      = .ok (.patchCall "pv1"
          (if K8s.firstOptIs [K8s.MergePatchType] K8s.MergePatchType then K8s.MergePatchType
            else K8s.StrategicMergePatchType) "diffdata") :=
  ⟨rfl, rfl, rfl, by decide, by decide,
    c5_diff_merge_patch_type_selection.1 _ _ _ _ _ _ _ rfl rfl rfl (by decide) (by decide)⟩

/-- C6.  A namespaced operation given a resource object targets the
namespace recorded in the object metadata when it is non-empty and the
configured handler namespace otherwise: shown for deployment
updateDeployment, rolebinding deleteRolebinding, and the dynamic
deleteUnstructured (whose REST-mapper lookups must report the resource as
namespaced). -/
theorem c6_namespaced_target_resolution :
    (∀ (h : deployment.Handler) (d : deployment.Deployment) (c : deployment.UpdateCall),
        deployment.updateDeployment h d = .ok c →
        (d.ns ≠ "" → c.ns = d.ns) ∧ (d.ns = "" → c.ns = h.ns))
    ∧ (∀ (h : rolebinding.Handler) (rb : rolebinding.RB) (ns name : String),
        rolebinding.deleteRolebinding h rb = .ok (.inNamespace ns name) →
        name = rb.name ∧ (rb.ns ≠ "" → ns = rb.ns) ∧ (rb.ns = "" → ns = h.ns))
    ∧ (∀ (h : dynamic.Handler) (env : dynamic.Env) (u : dynamic.UObj)
        (gvr : dynamic.GVR) (gvk : dynamic.GVK),
        env.findGVR u = .ok gvr → env.findGVK u = .ok gvk →
        env.isNamespaced gvk = .ok true →
        dynamic.deleteUnstructured h env u
          = .ok (.namespaced gvr (if u.ns ≠ "" then u.ns else h.ns) u.name
              (gvk.kind == "Job" || gvk.kind == "CronJob"))) := by
  refine ⟨?_, ?_, ?_⟩
  · intro h d c hc
    simp only [deployment.updateDeployment, Except.ok.injEq] at hc
    subst hc
    constructor
    · intro hne
      have : d.ns.length ≠ 0 := fun h0 => hne ((string_length_zero_iff d.ns).mp h0)
      simp [this]
    · intro he
      simp [he]
  · intro h rb ns name hc
    simp only [rolebinding.deleteRolebinding, Except.ok.injEq,
      rolebinding.DeleteCall.inNamespace.injEq] at hc
    refine ⟨hc.2.symm, ?_, ?_⟩
    · intro hne
      have hl : rb.ns.length ≠ 0 := fun h0 => hne ((string_length_zero_iff rb.ns).mp h0)
      rw [← hc.1]
      simp [hl]
    · intro he
      rw [← hc.1]
      simp [he]
  · intro h env u gvr gvk h1 h2 h3
    simp only [dynamic.deleteUnstructured, bind, Except.bind, h1, h2, h3]
    by_cases hne : u.ns = ""
    · simp [hne]
    · have hl : u.ns.length ≠ 0 := fun h0 => hne ((string_length_zero_iff u.ns).mp h0)
      simp [hne, hl]

/-- Witness for the C6 theorem: the dynamic delete of an object carrying
namespace "objns" under the sample REST mapper targets "objns", with all
hypotheses discharged by evaluation. -/
theorem c6_namespaced_target_resolution_witness :
    Sample.dynEnv.findGVR { name := "obj1", ns := "objns", content := "m" }
      = .ok { group := "apps", version := "v1", resource := "deployments" }
    ∧ Sample.dynEnv.isNamespaced { group := "apps", version := "v1", kind := "Deployment" }
      = .ok true
    ∧ dynamic.deleteUnstructured { ns := "hns" } Sample.dynEnv
        { name := "obj1", ns := "objns", content := "m" }
      = .ok (.namespaced { group := "apps", version := "v1", resource := "deployments" }
          (if ("objns" : String) ≠ "" then "objns" else "hns") "obj1"
          (("Deployment" : String) == "Job" || ("Deployment" : String) == "CronJob")) :=
  ⟨rfl, rfl,
    c6_namespaced_target_resolution.2.2 _ _ _ _ _ rfl rfl rfl⟩

/-- C8.  Apply attempts Create first and performs Update exactly when
Create fails with an AlreadyExists error; any other Create error is
returned unchanged with no Update attempted, and a successful Create
performs no Update: shown for applyCR (the typed/unstructured/map paths)
and ApplyFromBytes. -/
theorem c8_apply_updates_exactly_on_already_exists :
    ∀ (env : clusterrole.Env) (cr : clusterrole.CR) (data : String),
      ((clusterrole.applyCR env cr).updateAttempted = true
        ↔ ∃ e, env.createCR cr = .error e ∧ e.isAlreadyExists = true)
      ∧ (∀ r, env.createCR cr = .ok r →
          (clusterrole.applyCR env cr).res = .ok cr
          ∧ (clusterrole.applyCR env cr).updateAttempted = false)
      ∧ (∀ e, env.createCR cr = .error e → e.isAlreadyExists = false →
          (clusterrole.applyCR env cr).res = .error e
          ∧ (clusterrole.applyCR env cr).updateAttempted = false)
      ∧ (∀ e, env.createCR cr = .error e → e.isAlreadyExists = true →
          (clusterrole.applyCR env cr).res = env.updateCR cr
          ∧ (clusterrole.applyCR env cr).updateAttempted = true)
      ∧ ((clusterrole.ApplyFromBytes env data).updateAttempted = true
        ↔ ∃ e, env.createFromBytes data = .error e ∧ e.isAlreadyExists = true)
      ∧ (∀ r, env.createFromBytes data = .ok r →
          (clusterrole.ApplyFromBytes env data).res = .ok r
          ∧ (clusterrole.ApplyFromBytes env data).updateAttempted = false)
      ∧ (∀ e, env.createFromBytes data = .error e → e.isAlreadyExists = false →
          (clusterrole.ApplyFromBytes env data).res = .error e
          ∧ (clusterrole.ApplyFromBytes env data).updateAttempted = false)
      ∧ (∀ e, env.createFromBytes data = .error e → e.isAlreadyExists = true →
          (clusterrole.ApplyFromBytes env data).res = env.updateFromBytes data
          ∧ (clusterrole.ApplyFromBytes env data).updateAttempted = true) := by
  intro env cr data
  refine ⟨?_, ?_, ?_, ?_, ?_, ?_, ?_, ?_⟩
  · cases hc : env.createCR cr with
    | ok r => simp [clusterrole.applyCR, hc]
    | error e =>
      cases he : e.isAlreadyExists <;> simp [clusterrole.applyCR, hc, he]
  · intro r hc
    simp [clusterrole.applyCR, hc]
  · intro e hc he
    simp [clusterrole.applyCR, hc, he]
  · intro e hc he
    simp [clusterrole.applyCR, hc, he]
  · cases hc : env.createFromBytes data with
    | ok r => simp [clusterrole.ApplyFromBytes, hc]
    | error e =>
      cases he : e.isAlreadyExists <;> simp [clusterrole.ApplyFromBytes, hc, he]
  · intro r hc
    simp [clusterrole.ApplyFromBytes, hc]
  · intro e hc he
    simp [clusterrole.ApplyFromBytes, hc, he]
  · intro e hc he
    simp [clusterrole.ApplyFromBytes, hc, he]

/-- Witness for the C8 theorem: under the environment whose creates fail
with AlreadyExists the update path is taken, and under the environment
whose creates succeed no update is attempted. -/
theorem c8_apply_updates_exactly_on_already_exists_witness :
    Sample.crEnvExists.createCR { name := "cr1", body := "b" } = .error .alreadyExists
    ∧ K8s.Err.alreadyExists.isAlreadyExists = true
    ∧ (clusterrole.applyCR Sample.crEnvExists { name := "cr1", body := "b" }).res
      = Sample.crEnvExists.updateCR { name := "cr1", body := "b" }
    ∧ (clusterrole.applyCR Sample.crEnvExists { name := "cr1", body := "b" }).updateAttempted = true
    ∧ Sample.crEnvFresh.createCR { name := "cr1", body := "b" } = .ok { name := "cr1", body := "b" }
    ∧ (clusterrole.applyCR Sample.crEnvFresh { name := "cr1", body := "b" }).res
      = .ok { name := "cr1", body := "b" }
    ∧ (clusterrole.applyCR Sample.crEnvFresh { name := "cr1", body := "b" }).updateAttempted = false :=
  ⟨rfl, rfl,
    ((c8_apply_updates_exactly_on_already_exists Sample.crEnvExists
        { name := "cr1", body := "b" } "d").2.2.2.1 .alreadyExists rfl rfl).1,
    ((c8_apply_updates_exactly_on_already_exists Sample.crEnvExists
        { name := "cr1", body := "b" } "d").2.2.2.1 .alreadyExists rfl rfl).2,
    rfl,
    ((c8_apply_updates_exactly_on_already_exists Sample.crEnvFresh
        { name := "cr1", body := "b" } "d").2.1 { name := "cr1", body := "b" } rfl).1,
    ((c8_apply_updates_exactly_on_already_exists Sample.crEnvFresh
        { name := "cr1", body := "b" } "d").2.1 { name := "cr1", body := "b" } rfl).2⟩

/-- C9.  Whatever the input shape, every deployment Update, daemonset
Update and persistentvolumeclaim Create that reaches the cluster API
delegates an object whose resourceVersion and uid have been cleared to the
empty string. -/
theorem c9_update_clears_resourceversion_and_uid :
    (∀ (h : deployment.Handler) (env : deployment.Env) (arg : deployment.UpdateArg)
        (c : deployment.UpdateCall),
        deployment.Update h env arg = .ok c →
        c.deploy.resourceVersion = "" ∧ c.deploy.uid = "")
    ∧ (∀ (h : daemonset.Handler) (env : daemonset.Env) (arg : daemonset.UpdateArg)
        (c : daemonset.UpdateCall),
        daemonset.Update h env arg = .ok c →
        c.ds.resourceVersion = "" ∧ c.ds.uid = "")
    ∧ (∀ (h : persistentvolumeclaim.Handler) (env : persistentvolumeclaim.Env)
        (arg : persistentvolumeclaim.CreateArg) (c : persistentvolumeclaim.CreateCall),
        persistentvolumeclaim.Create h env arg = .ok c →
        c.pvc.resourceVersion = "" ∧ c.pvc.uid = "") := by
  refine ⟨?_, ?_, ?_⟩
  · intro h env arg c hc
    have base : ∀ d : deployment.Deployment,
        deployment.updateDeployment h d = .ok c →
        c.deploy.resourceVersion = "" ∧ c.deploy.uid = "" := by
      intro d hd
      simp only [deployment.updateDeployment, Except.ok.injEq] at hd
      subst hd
      exact ⟨rfl, rfl⟩
    cases arg <;>
      simp only [deployment.Update, deployment.UpdateFromFile, deployment.UpdateFromBytes,
        deployment.UpdateFromObject, deployment.UpdateFromUnstructured,
        bind, Except.bind] at hc <;>
      (repeat' split at hc) <;>
      first
        | exact base _ hc
        | simp at hc
  · intro h env arg c hc
    have base : ∀ d : daemonset.DaemonSet,
        daemonset.updateDaemonset h d = .ok c →
        c.ds.resourceVersion = "" ∧ c.ds.uid = "" := by
      intro d hd
      simp only [daemonset.updateDaemonset, Except.ok.injEq] at hd
      subst hd
      exact ⟨rfl, rfl⟩
    cases arg <;>
      simp only [daemonset.Update, daemonset.UpdateFromFile, daemonset.UpdateFromBytes,
        daemonset.UpdateFromObject, daemonset.UpdateFromUnstructured,
        bind, Except.bind] at hc <;>
      (repeat' split at hc) <;>
      first
        | exact base _ hc
        | simp at hc
  · intro h env arg c hc
    have base : ∀ p : persistentvolumeclaim.PVC,
        persistentvolumeclaim.createPVC h p = .ok c →
        c.pvc.resourceVersion = "" ∧ c.pvc.uid = "" := by
      intro p hp
      simp only [persistentvolumeclaim.createPVC, Except.ok.injEq] at hp
      subst hp
      exact ⟨rfl, rfl⟩
    cases arg <;>
      simp only [persistentvolumeclaim.Create, persistentvolumeclaim.CreateFromFile,
        persistentvolumeclaim.CreateFromBytes, persistentvolumeclaim.CreateFromObject,
        persistentvolumeclaim.CreateFromUnstructured, bind, Except.bind] at hc <;>
      (repeat' split at hc) <;>
      first
        | exact base _ hc
        | simp at hc

/-- Witness for the C9 theorem: a concrete typed update carrying a stale
resourceVersion and uid delegates an object with both fields cleared. -/
theorem c9_update_clears_resourceversion_and_uid_witness :
    deployment.Update { ns := "hns" } Sample.deployEnv
        (.ptr { name := "web", ns := "prod", resourceVersion := "42", uid := "u42", body := "b" })
      = .ok { ns := "prod",
              deploy := { name := "web", ns := "prod", resourceVersion := "", uid := "", body := "b" } }
    ∧ ({ ns := "prod",
         deploy := { name := "web", ns := "prod", resourceVersion := "", uid := "", body := "b" } }
        : deployment.UpdateCall).deploy.resourceVersion = ""
    ∧ ({ ns := "prod",
         deploy := { name := "web", ns := "prod", resourceVersion := "", uid := "", body := "b" } }
        : deployment.UpdateCall).deploy.uid = "" :=
  ⟨rfl,
    (c9_update_clears_resourceversion_and_uid.1 { ns := "hns" } Sample.deployEnv
      (.ptr { name := "web", ns := "prod", resourceVersion := "42", uid := "u42", body := "b" })
      _ rfl).1,
    (c9_update_clears_resourceversion_and_uid.1 { ns := "hns" } Sample.deployEnv
      (.ptr { name := "web", ns := "prod", resourceVersion := "42", uid := "u42", body := "b" })
      _ rfl).2⟩

/-- C10.  On the strategic-merge and JSON-merge paths, empty or trivial
("\x7b\x7d") patch data makes Patch return the original object with no
cluster-API request; on the diff path, an empty or trivial computed diff
does the same, and in particular patching an object against itself (whose
two-way merge patch is the trivial document) returns the original. -/
theorem c10_empty_patch_returns_original :
    (∀ (o : persistentvolume.PV),
        persistentvolume.strategicMergePatch o "" = .ok (.originalReturned o)
        ∧ persistentvolume.strategicMergePatch o "{}" = .ok (.originalReturned o)
        ∧ persistentvolume.jsonMergePatch o "" = .ok (.originalReturned o)
        ∧ persistentvolume.jsonMergePatch o "{}" = .ok (.originalReturned o))
    ∧ (∀ (c : clusterrole.CR),
        clusterrole.strategicMergePatch c "" = .ok (.originalReturned c)
        ∧ clusterrole.strategicMergePatch c "{}" = .ok (.originalReturned c)
        ∧ clusterrole.jsonMergePatch c "" = .ok (.originalReturned c)
        ∧ clusterrole.jsonMergePatch c "{}" = .ok (.originalReturned c))
    ∧ (∀ (env : persistentvolume.Env) (o m : persistentvolume.PV) (opts : List String)
        (jo jm d : String),
        env.marshal o = .ok jo → env.marshal m = .ok jm →
        env.createTwoWayMergePatch jo jm = .ok d → (d.length = 0 ∨ d = "{}") →
        persistentvolume.diffMergePatch env o m opts = .ok (.originalReturned o))
    ∧ (∀ (env : clusterrole.Env) (o m : clusterrole.CR) (opts : List String)
        (jo jm d : String),
        env.marshal o = .ok jo → env.marshal m = .ok jm →
        env.createTwoWayMergePatch jo jm = .ok d → (d.length = 0 ∨ d = "{}") →
        clusterrole.diffMergePatch env o m opts = .ok (.originalReturned o))
    ∧ (∀ (env : persistentvolume.Env) (o : persistentvolume.PV) (opts : List String)
        (j : String),
        env.marshal o = .ok j → env.createTwoWayMergePatch j j = .ok "{}" →
        persistentvolume.Patch env o (.pvPtr o) opts = .ok (.originalReturned o)) := by
  refine ⟨fun o => ⟨rfl, rfl, rfl, rfl⟩, fun c => ⟨rfl, rfl, rfl, rfl⟩, ?_, ?_, ?_⟩
  · intro env o m opts jo jm d h1 h2 h3 h4
    simp only [persistentvolume.diffMergePatch, bind, Except.bind, h1, h2, h3]
    rcases h4 with h4 | h4 <;> simp [h4]
  · intro env o m opts jo jm d h1 h2 h3 h4
    simp only [clusterrole.diffMergePatch, bind, Except.bind, h1, h2, h3]
    rcases h4 with h4 | h4 <;> simp [h4]
  · intro env o opts j h1 h2
    simp [persistentvolume.Patch, persistentvolume.diffMergePatch, bind, Except.bind, h1, h2]

/-- Witness for the C10 theorem: under the sample environment, patching a
concrete persistentvolume against itself returns the original object. -/
theorem c10_empty_patch_returns_original_witness :
    Sample.pvEnv.marshal { name := "pv1", body := "obody" } = .ok "obody"
    ∧ Sample.pvEnv.createTwoWayMergePatch "obody" "obody" = .ok "{}"
    ∧ persistentvolume.Patch Sample.pvEnv { name := "pv1", body := "obody" }
        (.pvPtr { name := "pv1", body := "obody" }) []
      = .ok (.originalReturned { name := "pv1", body := "obody" }) :=
  ⟨rfl, rfl,
    c10_empty_patch_returns_original.2.2.2.2 Sample.pvEnv
      { name := "pv1", body := "obody" } [] "obody" rfl rfl⟩
